import Mathlib

/-!
Shallow embedding of the WASM adapter utilities of the repository
(src/utils/mediapipe-wasm-adapter.ts and the two files concatenated in
src/unnamed/part_000: a second MediaPipeWasmAdapter variant and the
WasmLoader class).

Modelling conventions:
- Host primitives (fetch with and without an Accept header, HEAD fetch,
  WebAssembly.instantiateStreaming, Response.arrayBuffer,
  WebAssembly.instantiate) are an environment record of pure functions
  returning Except values; a thrown JS error is Except.error.
- JS Error objects are modelled by their message string.
- console.log / console.warn / console.error calls are collected in an
  ordered list, with each argument kept (strings and error objects).
- The MediaPipe successCallback is modelled by recording every invocation
  (instance, module) in an ordered callbackCalls list; in each definition
  the record entry is produced in the same control-flow position in which
  the source invokes the callback, i.e. before the promise resolves.
- Promises resolve to Except.ok and reject with Except.error; async
  sequencing becomes explicit sequential composition.
-/

/-- A JavaScript Error value, kept as its message string. -/
structure JsError where
  message : String
deriving DecidableEq

/-- The observable parts of a fetch Response used by the source: ok flag,
status, statusText and the content-type header (none when absent). -/
structure Response where
  ok : Bool
  status : Nat
  statusText : String
  contentType : Option String
deriving DecidableEq

/-- Opaque import object handed to instantiateWasm by MediaPipe. -/
structure Imports where
  id : Nat
deriving DecidableEq

/-- Opaque WebAssembly.Instance value. -/
structure WasmInstance where
  id : Nat
deriving DecidableEq

/-- Opaque WebAssembly.Module value. -/
structure WasmModule where
  id : Nat
deriving DecidableEq

/-- The record resolved by WebAssembly.instantiateStreaming and
WebAssembly.instantiate: an instance together with the compiled module.
The source reads wasmModule.instance and wasmModule.module; `instance` is a
Lean keyword, so the field is named inst. -/
structure WasmPair where
  inst : WasmInstance
  module : WasmModule
deriving DecidableEq

/-- Opaque ArrayBuffer value produced by Response.arrayBuffer(). -/
structure ArrayBuf where
  id : Nat
deriving DecidableEq

/-- One argument of a console call: a string or an error object. -/
inductive ConsoleArg where
  | str (s : String)
  | err (e : JsError)
deriving DecidableEq

/-- One console invocation with its level and arguments. -/
inductive ConsoleCall where
  | log (args : List ConsoleArg)
  | warn (args : List ConsoleArg)
  | error (args : List ConsoleArg)
deriving DecidableEq

/-- Host environment: the behaviour of every external primitive the adapter
code calls. Each field is deterministic within one environment; distinct
call sites with distinct request shapes use distinct fields (fetch without
headers, fetch with the Accept header, fetch with method HEAD). -/
structure WasmEnv where
  fetch : String → Except JsError Response
  fetchAccept : String → Except JsError Response
  fetchHead : String → Except JsError Response
  instantiateStreaming : Response → Option Imports → Except JsError WasmPair
  arrayBuffer : Response → Except JsError ArrayBuf
  instantiate : ArrayBuf → Imports → Except JsError WasmPair

/-- Whether pat occurs as a contiguous run inside the second list. -/
def hasSubstring (pat : List Char) : List Char → Bool
  | [] => pat.isEmpty
  | c :: rest => pat.isPrefixOf (c :: rest) || hasSubstring pat rest

/-- JavaScript String.prototype.includes, on the characters of the strings. -/
def includes (s pat : String) : Bool :=
  hasSubstring pat.toList s.toList

/-- JavaScript String.prototype.endsWith, on the characters of the strings. -/
def jsEndsWith (s sfx : String) : Bool :=
  sfx.toList.isSuffixOf s.toList

/-- JavaScript template-literal rendering of a string-or-null value
(null prints as "null"). -/
def jsString : Option String → String
  | none => "null"
  | some s => s

/-- The content-type test shared by the part_000 code paths:
the warning fires exactly when this is false
(source: !contentType || !contentType.includes(&quot;application/wasm&quot;)). -/
def mimeOk : Option String → Bool
  | none => false
  | some ct => includes ct "application/wasm"

/-- Result of a locateFile call: the returned URL and the console output. -/
structure LocateResult where
  url : String
  console : List ConsoleCall
deriving DecidableEq

/-- locateFile of createWasmConfig in src/utils/mediapipe-wasm-adapter.ts
(lines 34-43). The source parameter named prefix is rendered pfx. -/
def tsLocateFile (wasmPath path pfx : String) : LocateResult :=
  if jsEndsWith path ".wasm" then
    let wasmUrl := wasmPath ++ "/" ++ path
    { url := wasmUrl
      console := [ConsoleCall.log
        [ConsoleArg.str ("[MediaPipeWasmAdapter] 定位 WASM 文件: " ++ wasmUrl)]] }
  else
    { url := pfx ++ path, console := [] }

/-- locateFile of createWasmLoader in src/unnamed/part_000 (lines 18-30). -/
def v0LocateFile (wasmPath path pfx : String) : LocateResult :=
  let c0 := [ConsoleCall.log
    [ConsoleArg.str ("[MediaPipeWasmAdapter] 定位文件: " ++ path ++ ", 前缀: " ++ pfx)]]
  if jsEndsWith path ".wasm" then
    let fullPath := wasmPath ++ "/" ++ path
    { url := fullPath
      console := c0 ++ [ConsoleCall.log
        [ConsoleArg.str ("[MediaPipeWasmAdapter] WASM文件路径: " ++ fullPath)]] }
  else
    { url := pfx ++ path, console := c0 }

deriving instance DecidableEq for Except

/-- Result of one instantiateWasm call: the settled promise, the console
output, and every successCallback invocation in order. -/
structure InstantiateResult where
  result : Except JsError WasmInstance
  console : List ConsoleCall
  callbackCalls : List WasmPair
deriving DecidableEq

/-- The streaming attempt of instantiateWasm in createWasmConfig
(src/utils/mediapipe-wasm-adapter.ts lines 60-63): fetch with the Accept
header, then WebAssembly.instantiateStreaming(response, imports). Any
rejection of either step is the error of the whole attempt. -/
def tsStream (env : WasmEnv) (wasmUrl : String) (imports : Imports) :
    Except JsError WasmPair :=
  match env.fetchAccept wasmUrl with
  | Except.error e => Except.error e
  | Except.ok response => env.instantiateStreaming response (some imports)

/-- The ArrayBuffer fallback of instantiateWasm in createWasmConfig
(src/utils/mediapipe-wasm-adapter.ts lines 73-75): plain fetch of the same
URL, Response.arrayBuffer(), WebAssembly.instantiate(buffer, imports).
No status or content-type check is performed on this path. -/
def tsFallback (env : WasmEnv) (wasmUrl : String) (imports : Imports) :
    Except JsError WasmPair :=
  match env.fetch wasmUrl with
  | Except.error e => Except.error e
  | Except.ok response =>
    match env.arrayBuffer response with
    | Except.error e => Except.error e
    | Except.ok wasmBuffer => env.instantiate wasmBuffer imports

/-- instantiateWasm of createWasmConfig in src/utils/mediapipe-wasm-adapter.ts
(lines 51-84). The try block is tsStream; its catch runs tsFallback; the
inner catch rethrows fallbackError unchanged. The source performs no
response.ok check and no content-type check in this variant. -/
def tsInstantiateWasm (env : WasmEnv) (wasmPath : String) (imports : Imports) :
    InstantiateResult :=
  let wasmUrl := wasmPath ++ "/vision_wasm_internal.wasm"
  let c0 := [ConsoleCall.log
    [ConsoleArg.str "[MediaPipeWasmAdapter] 自定义 instantiateWasm 已被调用"]]
  match tsStream env wasmUrl imports with
  | Except.ok wasmModule =>
      { result := Except.ok wasmModule.inst
        console := c0 ++ [ConsoleCall.log
          [ConsoleArg.str "[MediaPipeWasmAdapter] ✓ WASM 流式实例化成功"]]
        callbackCalls := [wasmModule] }
  | Except.error e =>
      let c1 := c0 ++
        [ConsoleCall.error
          [ConsoleArg.str "[MediaPipeWasmAdapter] ✗ WASM 流式实例化失败:",
           ConsoleArg.err e],
         ConsoleCall.log
          [ConsoleArg.str "[MediaPipeWasmAdapter] 尝试 ArrayBuffer 回退方案..."]]
      match tsFallback env wasmUrl imports with
      | Except.ok wasmModule =>
          { result := Except.ok wasmModule.inst
            console := c1 ++ [ConsoleCall.log
              [ConsoleArg.str "[MediaPipeWasmAdapter] ✓ ArrayBuffer 回退方案成功"]]
            callbackCalls := [wasmModule] }
      | Except.error fallbackError =>
          { result := Except.error fallbackError
            console := c1 ++ [ConsoleCall.error
              [ConsoleArg.str "[MediaPipeWasmAdapter] ✗ ArrayBuffer 回退方案也失败:",
               ConsoleArg.err fallbackError]]
            callbackCalls := [] }

/-- instantiateWasm of createWasmLoader in src/unnamed/part_000 (lines
33-64). This variant fetches without headers, throws on a non-ok response
(HTTP status and statusText in the message), warns on a missing or wrong
content-type, streams, and has no fallback: the catch logs the error and
rethrows it. -/
def v0InstantiateWasm (env : WasmEnv) (wasmPath : String) (imports : Imports) :
    InstantiateResult :=
  let c0 := [ConsoleCall.log
    [ConsoleArg.str "[MediaPipeWasmAdapter] 自定义WASM实例化"]]
  let wasmFileName := "vision_wasm_internal.wasm"
  let wasmUrl := wasmPath ++ "/" ++ wasmFileName
  let c1 := c0 ++ [ConsoleCall.log
    [ConsoleArg.str ("[MediaPipeWasmAdapter] 加载WASM: " ++ wasmUrl)]]
  let failLog := fun (e : JsError) => ConsoleCall.error
    [ConsoleArg.str "[MediaPipeWasmAdapter] ✗ WASM实例化失败:", ConsoleArg.err e]
  match env.fetch wasmUrl with
  | Except.error e =>
      { result := Except.error e, console := c1 ++ [failLog e], callbackCalls := [] }
  | Except.ok response =>
    if response.ok then
      let cw := if mimeOk response.contentType then [] else
        [ConsoleCall.warn [ConsoleArg.str
          ("[MediaPipeWasmAdapter] 警告: WASM MIME类型可能不正确: " ++
            jsString response.contentType)]]
      match env.instantiateStreaming response (some imports) with
      | Except.ok wasmModule =>
          { result := Except.ok wasmModule.inst
            console := c1 ++ cw ++ [ConsoleCall.log
              [ConsoleArg.str "[MediaPipeWasmAdapter] ✓ WASM实例化成功"]]
            callbackCalls := [wasmModule] }
      | Except.error e =>
          { result := Except.error e
            console := c1 ++ cw ++ [failLog e]
            callbackCalls := [] }
    else
      let e := JsError.mk ("HTTP " ++ toString response.status ++ ": " ++
        response.statusText)
      { result := Except.error e, console := c1 ++ [failLog e], callbackCalls := [] }

/-- Result of one WasmLoader.loadWasm call: the settled promise, console
output, and the URLs requested over the network (one fetch per call). -/
structure LoadResult where
  result : Except JsError WasmInstance
  console : List ConsoleCall
  requests : List String
deriving DecidableEq

/-- WasmLoader.loadWasm in src/unnamed/part_000 (lines 99-132). Declared in
the source as returning Promise of WebAssembly.Module, but the source
returns wasmModule.instance. It fetches with the Accept header, throws on a
non-ok response, warns on a bad content-type, and calls
WebAssembly.instantiateStreaming with the response only (no import object,
modelled by passing none). The catch logs and rethrows every failure. -/
def loadWasm (env : WasmEnv) (basePath wasmFileName : String) : LoadResult :=
  let wasmUrl := basePath ++ "/" ++ wasmFileName
  let c0 := [ConsoleCall.log
    [ConsoleArg.str ("[WasmLoader] 开始加载WASM文件: " ++ wasmUrl)]]
  let failLog := fun (e : JsError) => ConsoleCall.error
    [ConsoleArg.str ("[WasmLoader] ✗ WASM文件加载失败: " ++ wasmFileName),
     ConsoleArg.err e]
  match env.fetchAccept wasmUrl with
  | Except.error e =>
      { result := Except.error e, console := c0 ++ [failLog e], requests := [wasmUrl] }
  | Except.ok response =>
    if response.ok then
      let cw := if mimeOk response.contentType then [] else
        [ConsoleCall.warn [ConsoleArg.str
          ("[WasmLoader] 警告: MIME类型可能不正确: " ++ jsString response.contentType)]]
      match env.instantiateStreaming response none with
      | Except.ok wasmModule =>
          { result := Except.ok wasmModule.inst
            console := c0 ++ cw ++ [ConsoleCall.log
              [ConsoleArg.str ("[WasmLoader] ✓ WASM文件加载成功: " ++ wasmFileName)]]
            requests := [wasmUrl] }
      | Except.error e =>
          { result := Except.error e
            console := c0 ++ cw ++ [failLog e]
            requests := [wasmUrl] }
    else
      let e := JsError.mk ("HTTP " ++ toString response.status ++ ": " ++
        response.statusText)
      { result := Except.error e, console := c0 ++ [failLog e], requests := [wasmUrl] }

/-- The fixed file list of preloadWasmFiles (src/unnamed/part_000 lines
138-141); the operation takes no filename parameter. -/
def wasmFiles : List String :=
  ["vision_wasm_internal.wasm", "vision_wasm_nosimd_internal.wasm"]

/-- The fixed file list of validateWasmFiles (src/unnamed/part_000 lines
163-166); the operation takes no filename parameter. -/
def testFiles : List String :=
  ["vision_wasm_internal.wasm", "vision_wasm_internal.js"]

/-- One element of the array passed to Promise.all in preloadWasmFiles
(lines 147-150): this.loadWasm(file).catch(err =&gt; warn; return null).
The catch handler converts every rejection into a fulfilled null, so the
element promise is always Except.ok. -/
def preloadOne (env : WasmEnv) (basePath file : String) :
    Except JsError (Option WasmInstance) × List ConsoleCall × List String :=
  let r := loadWasm env basePath file
  match r.result with
  | Except.ok inst => (Except.ok (some inst), r.console, r.requests)
  | Except.error err =>
      (Except.ok none,
       r.console ++ [ConsoleCall.warn
         [ConsoleArg.str ("[WasmLoader] 预加载失败 (" ++ file ++ "):"),
          ConsoleArg.str err.message]],
       r.requests)

/-- Promise.all over already-settled element promises: the first rejection
rejects the whole, otherwise all values are collected in order. -/
def sequenceExcept {α : Type} : List (Except JsError α) → Except JsError (List α)
  | [] => Except.ok []
  | Except.error e :: _ => Except.error e
  | Except.ok a :: rest =>
    match sequenceExcept rest with
    | Except.error e => Except.error e
    | Except.ok as => Except.ok (a :: as)

/-- Result of preloadWasmFiles: the settled void promise, the per-file
values of the awaited Promise.all array (null where a load was masked),
console output and requested URLs. -/
structure PreloadResult where
  result : Except JsError Unit
  settled : List (Option WasmInstance)
  console : List ConsoleCall
  requests : List String
deriving DecidableEq

/-- WasmLoader.preloadWasmFiles in src/unnamed/part_000 (lines 137-157):
maps the fixed file pair through loadWasm with a per-file catch that masks
the failure as null, awaits Promise.all inside try/catch, and resolves void
in both the try and the catch branch. -/
def preloadWasmFiles (env : WasmEnv) (basePath : String) : PreloadResult :=
  let c0 := [ConsoleCall.log [ConsoleArg.str "[WasmLoader] 开始预加载WASM文件..."]]
  let attempts := wasmFiles.map (preloadOne env basePath)
  let consoles := attempts.foldl (fun acc a => acc ++ a.2.1) c0
  let reqs := attempts.foldl (fun acc a => acc ++ a.2.2) []
  match sequenceExcept (attempts.map (fun a => a.1)) with
  | Except.ok vals =>
      { result := Except.ok ()
        settled := vals
        console := consoles ++ [ConsoleCall.log
          [ConsoleArg.str "[WasmLoader] ✓ WASM文件预加载完成"]]
        requests := reqs }
  | Except.error e =>
      { result := Except.ok ()
        settled := []
        console := consoles ++ [ConsoleCall.error
          [ConsoleArg.str "[WasmLoader] ✗ WASM预加载失败:", ConsoleArg.err e]]
        requests := reqs }

/-- Result of validateWasmFiles: the boolean it resolves with, console
output and the URLs of the HEAD requests actually issued, in order. -/
structure ValidateResult where
  ok : Bool
  console : List ConsoleCall
  requests : List String
deriving DecidableEq

/-- The for-of loop body of validateWasmFiles (src/unnamed/part_000 lines
170-186), one file at a time: a HEAD fetch whose network error (caught) or
non-ok status returns false immediately; an ok response logs and continues.
After the last file the success log is emitted and true is returned. -/
def validateLoop (env : WasmEnv) (basePath : String) :
    List String → List ConsoleCall → List String → ValidateResult
  | [], console, reqs =>
      { ok := true
        console := console ++ [ConsoleCall.log
          [ConsoleArg.str "[WasmLoader] ✓ 所有WASM文件验证通过"]]
        requests := reqs }
  | file :: rest, console, reqs =>
    let url := basePath ++ "/" ++ file
    match env.fetchHead url with
    | Except.error e =>
        { ok := false
          console := console ++ [ConsoleCall.error
            [ConsoleArg.str ("[WasmLoader] ❌ " ++ file ++ ": 网络错误"),
             ConsoleArg.err e]]
          requests := reqs ++ [url] }
    | Except.ok response =>
      if response.ok then
        validateLoop env basePath rest
          (console ++ [ConsoleCall.log
            [ConsoleArg.str ("[WasmLoader] ✅ " ++ file ++ ": " ++
              toString response.status ++ " (" ++
              jsString response.contentType ++ ")")]])
          (reqs ++ [url])
      else
        { ok := false
          console := console ++ [ConsoleCall.error
            [ConsoleArg.str ("[WasmLoader] ❌ " ++ file ++ ": " ++
              toString response.status)]]
          requests := reqs ++ [url] }

/-- WasmLoader.validateWasmFiles in src/unnamed/part_000 (lines 162-190). -/
def validateWasmFiles (env : WasmEnv) (basePath : String) : ValidateResult :=
  validateLoop env basePath testFiles
    [ConsoleCall.log [ConsoleArg.str "[WasmLoader] 验证WASM文件可访问性..."]] []

/-- Specification-side view of one preload outcome: the value the masked
element promise settles with for a given file. -/
def loadOutcome (env : WasmEnv) (basePath file : String) : Option WasmInstance :=
  match (loadWasm env basePath file).result with
  | Except.ok inst => some inst
  | Except.error _ => none

/-- Specification-side view of one validate check: whether the HEAD request
for the file neither threw nor returned a non-ok status. -/
def headPass (env : WasmEnv) (basePath file : String) : Bool :=
  match env.fetchHead (basePath ++ "/" ++ file) with
  | Except.ok response => response.ok
  | Except.error _ => false

/-- Whether a console call is a warning. -/
def isWarn : ConsoleCall → Bool
  | ConsoleCall.warn _ => true
  | _ => false

/-! Concrete fixtures used by witnesses and counterexamples. -/

/-- A concrete import object. -/
def imps0 : Imports := ⟨0⟩

/-- A concrete instance/module pair returned by a succeeding primitive. -/
def pair0 : WasmPair := ⟨⟨1⟩, ⟨2⟩⟩

/-- A concrete ArrayBuffer. -/
def buf0 : ArrayBuf := ⟨3⟩

/-- A successful response with the proper WASM MIME type. -/
def okResponse : Response :=
  { ok := true, status := 200, statusText := "OK",
    contentType := some "application/wasm" }

/-- A failure-status response (HTTP 404 with an HTML error page). -/
def resp404 : Response :=
  { ok := false, status := 404, statusText := "Not Found",
    contentType := some "text/html" }

/-- A successful response whose content-type header is absent. -/
def respNoMime : Response :=
  { ok := true, status := 200, statusText := "OK", contentType := none }

/-- A concrete streaming-compilation error. -/
def eStream0 : JsError := ⟨"Incorrect response MIME type. Expected application/wasm."⟩

/-- A concrete network error. -/
def eNet0 : JsError := ⟨"TypeError: Failed to fetch"⟩

/-- A concrete buffered-compilation error. -/
def eMagic0 : JsError := ⟨"CompileError: expected magic word"⟩

/-- Environment in which every primitive succeeds. -/
def envAllOk : WasmEnv :=
  { fetch := fun _ => Except.ok okResponse
    fetchAccept := fun _ => Except.ok okResponse
    fetchHead := fun _ => Except.ok okResponse
    instantiateStreaming := fun _ _ => Except.ok pair0
    arrayBuffer := fun _ => Except.ok buf0
    instantiate := fun _ _ => Except.ok pair0 }

/-- Environment in which streaming compilation rejects but every buffered
primitive (plain fetch, arrayBuffer, instantiate) succeeds. -/
def envFallbackReady : WasmEnv :=
  { fetch := fun _ => Except.ok okResponse
    fetchAccept := fun _ => Except.ok okResponse
    fetchHead := fun _ => Except.ok okResponse
    instantiateStreaming := fun _ _ => Except.error eStream0
    arrayBuffer := fun _ => Except.ok buf0
    instantiate := fun _ _ => Except.ok pair0 }

/-- Environment in which the streaming attempt fails with eStream0 and the
fallback plain fetch fails with the network error eNet0. -/
def envBothFail : WasmEnv :=
  { fetch := fun _ => Except.error eNet0
    fetchAccept := fun _ => Except.ok okResponse
    fetchHead := fun _ => Except.error eNet0
    instantiateStreaming := fun _ _ => Except.error eStream0
    arrayBuffer := fun _ => Except.ok buf0
    instantiate := fun _ _ => Except.ok pair0 }

/-- Environment in which every fetch serves the 404 page; the host streaming
primitive rejects it (as real hosts do for a non-ok response), arrayBuffer
yields the page bytes, and buffered compilation rejects them. -/
def env404 : WasmEnv :=
  { fetch := fun _ => Except.ok resp404
    fetchAccept := fun _ => Except.ok resp404
    fetchHead := fun _ => Except.ok resp404
    instantiateStreaming := fun _ _ => Except.error eStream0
    arrayBuffer := fun _ => Except.ok buf0
    instantiate := fun _ _ => Except.error eMagic0 }

/-- Environment in which every fetch succeeds but without any content-type
header, and both compilation primitives nevertheless succeed. -/
def envNoMime : WasmEnv :=
  { fetch := fun _ => Except.ok respNoMime
    fetchAccept := fun _ => Except.ok respNoMime
    fetchHead := fun _ => Except.ok respNoMime
    instantiateStreaming := fun _ _ => Except.ok pair0
    arrayBuffer := fun _ => Except.ok buf0
    instantiate := fun _ _ => Except.ok pair0 }

/-- Environment in which only the Accept-header fetch of
/wasm/vision_wasm_internal.wasm fails (a network error for the first
preloaded file); everything else succeeds. -/
def envFirstFails : WasmEnv :=
  { fetch := fun _ => Except.ok okResponse
    fetchAccept := fun url =>
      if url = "/wasm/vision_wasm_internal.wasm" then Except.error eNet0
      else Except.ok okResponse
    fetchHead := fun _ => Except.ok okResponse
    instantiateStreaming := fun _ _ => Except.ok pair0
    arrayBuffer := fun _ => Except.ok buf0
    instantiate := fun _ _ => Except.ok pair0 }

/-! Claim theorems. -/

/-- C1: for both locateFile variants, a filename ending in ".wasm" resolves
to configuredBasePath ++ "/" ++ filename with the default prefix ignored
entirely (the result is unchanged under any other prefix), and every other
filename resolves to defaultPrefix ++ filename exactly. -/
theorem claim_C1_locateFile (wasmPath path pfx pfx2 : String) :
    (jsEndsWith path ".wasm" = true →
      (tsLocateFile wasmPath path pfx).url = wasmPath ++ "/" ++ path ∧
      (v0LocateFile wasmPath path pfx).url = wasmPath ++ "/" ++ path ∧
      (tsLocateFile wasmPath path pfx).url = (tsLocateFile wasmPath path pfx2).url ∧
      (v0LocateFile wasmPath path pfx).url = (v0LocateFile wasmPath path pfx2).url) ∧
    (jsEndsWith path ".wasm" = false →
      (tsLocateFile wasmPath path pfx).url = pfx ++ path ∧
      (v0LocateFile wasmPath path pfx).url = pfx ++ path) := by
  constructor <;> intro h <;> simp [tsLocateFile, v0LocateFile, h]

/-- C1 witness: concrete evaluation at a .wasm filename and a .js filename. -/
theorem claim_C1_locateFile_witness :
    (tsLocateFile "/wasm" "vision_wasm_internal.wasm" "p/").url =
      "/wasm" ++ "/" ++ "vision_wasm_internal.wasm" ∧
    (tsLocateFile "/wasm" "vision_wasm_internal.js" "p/").url =
      "p/" ++ "vision_wasm_internal.js" :=
  ⟨((claim_C1_locateFile "/wasm" "vision_wasm_internal.wasm" "p/" "q/").1
      (by decide)).1,
   ((claim_C1_locateFile "/wasm" "vision_wasm_internal.js" "p/" "q/").2
      (by decide)).1⟩

/-- C2: whenever the streaming path succeeds, each instantiateWasm variant
invokes the success callback exactly once, the promise resolves with
exactly the value passed as the first callback argument (the instance of
the streamed pair), and the second callback argument is the compiled
module of that same pair. The callback entry is produced before the
resolution in the model, matching the statement order of the source. -/
theorem claim_C2_instantiateWasm_success (env : WasmEnv) (wasmPath : String)
    (imports : Imports) (p : WasmPair) :
    (tsStream env (wasmPath ++ "/vision_wasm_internal.wasm") imports = Except.ok p →
      (tsInstantiateWasm env wasmPath imports).callbackCalls = [p] ∧
      (tsInstantiateWasm env wasmPath imports).result = Except.ok p.inst) ∧
    (∀ r, env.fetch (wasmPath ++ "/" ++ "vision_wasm_internal.wasm") = Except.ok r →
      r.ok = true →
      env.instantiateStreaming r (some imports) = Except.ok p →
      (v0InstantiateWasm env wasmPath imports).callbackCalls = [p] ∧
      (v0InstantiateWasm env wasmPath imports).result = Except.ok p.inst) := by
  constructor
  · intro hs
    simp [tsInstantiateWasm, hs]
  · intro r hf hok hstream
    simp [v0InstantiateWasm, hf, hok, hstream]

/-- C2 witness: in the all-succeeding environment the ts variant calls the
callback once with pair0 and resolves with its instance. -/
theorem claim_C2_witness :
    (tsInstantiateWasm envAllOk "/wasm" imps0).callbackCalls = [pair0] ∧
    (tsInstantiateWasm envAllOk "/wasm" imps0).result = Except.ok pair0.inst :=
  (claim_C2_instantiateWasm_success envAllOk "/wasm" imps0 pair0).1 rfl

/-- C3 counterexample: the claim quantifies over every invocation of
instantiateWasm, but the createWasmLoader variant (src/unnamed/part_000)
has no fallback. In envFallbackReady the streaming compilation rejects
while the refetch, arrayBuffer and buffered instantiate would all succeed,
yet that variant rejects with the streaming error and never invokes the
callback. -/
theorem claim_C3_counterexample :
    envFallbackReady.fetch "/wasm/vision_wasm_internal.wasm" = Except.ok okResponse ∧
    envFallbackReady.arrayBuffer okResponse = Except.ok buf0 ∧
    envFallbackReady.instantiate buf0 imps0 = Except.ok pair0 ∧
    (v0InstantiateWasm envFallbackReady "/wasm" imps0).result = Except.error eStream0 ∧
    (v0InstantiateWasm envFallbackReady "/wasm" imps0).callbackCalls = [] :=
  ⟨rfl, rfl, rfl, rfl, rfl⟩

/-- C3 amended: for the createWasmConfig variant
(src/utils/mediapipe-wasm-adapter.ts), which is the one with a fallback, a
failed streaming attempt followed by a successful buffered fallback still
succeeds: the callback is invoked with the fallback-produced pair and its
instance is returned. -/
theorem claim_C3_amended (env : WasmEnv) (wasmPath : String) (imports : Imports)
    (e : JsError) (p : WasmPair)
    (hs : tsStream env (wasmPath ++ "/vision_wasm_internal.wasm") imports =
      Except.error e)
    (hf : tsFallback env (wasmPath ++ "/vision_wasm_internal.wasm") imports =
      Except.ok p) :
    (tsInstantiateWasm env wasmPath imports).result = Except.ok p.inst ∧
    (tsInstantiateWasm env wasmPath imports).callbackCalls = [p] := by
  simp [tsInstantiateWasm, hs, hf]

/-- C3 amended witness: concrete fallback recovery of the ts variant. -/
theorem claim_C3_amended_witness :
    (tsInstantiateWasm envFallbackReady "/wasm" imps0).result =
      Except.ok pair0.inst ∧
    (tsInstantiateWasm envFallbackReady "/wasm" imps0).callbackCalls = [pair0] :=
  claim_C3_amended envFallbackReady "/wasm" imps0 eStream0 pair0 rfl rfl

/-- C4: when both the streaming attempt and the buffered fallback of the
createWasmConfig variant fail, the operation rejects with exactly the
fallback failure (the error kind the specification names
FallbackExhaustedError is, in the source, the rethrown fallbackError
itself, which carries the second failure and nothing else): the result is
Except.error e2 for every streaming error e1, so the original streaming
failure does not occur in the final error, and the callback never fires. -/
theorem claim_C4_fallbackExhausted (env : WasmEnv) (wasmPath : String)
    (imports : Imports) (e1 e2 : JsError)
    (hs : tsStream env (wasmPath ++ "/vision_wasm_internal.wasm") imports =
      Except.error e1)
    (hf : tsFallback env (wasmPath ++ "/vision_wasm_internal.wasm") imports =
      Except.error e2) :
    (tsInstantiateWasm env wasmPath imports).result = Except.error e2 ∧
    (tsInstantiateWasm env wasmPath imports).callbackCalls = [] := by
  simp [tsInstantiateWasm, hs, hf]

/-- C4 witness: streaming fails with eStream0, the fallback fetch fails
with eNet0, and the operation rejects with eNet0 (not eStream0). -/
theorem claim_C4_witness :
    (tsInstantiateWasm envBothFail "/wasm" imps0).result = Except.error eNet0 ∧
    (tsInstantiateWasm envBothFail "/wasm" imps0).callbackCalls = [] :=
  claim_C4_fallbackExhausted envBothFail "/wasm" imps0 eStream0 eNet0 rfl rfl

/-- C5 counterexample: the claim quantifies over every invocation of
instantiateWasm, but the createWasmConfig variant
(src/utils/mediapipe-wasm-adapter.ts) never inspects response.ok. In
env404 the primary fetch resolves with the non-ok 404 response, yet the
operation never produces the HTTP-status error: it rejects with the
buffered-compilation error of the fallback instead. -/
theorem claim_C5_counterexample :
    env404.fetchAccept "/wasm/vision_wasm_internal.wasm" = Except.ok resp404 ∧
    resp404.ok = false ∧
    (tsInstantiateWasm env404 "/wasm" imps0).result = Except.error eMagic0 ∧
    (tsInstantiateWasm env404 "/wasm" imps0).result ≠
      Except.error (JsError.mk ("HTTP " ++ toString resp404.status ++ ": " ++
        resp404.statusText)) := by
  refine ⟨rfl, rfl, rfl, ?_⟩
  decide

/-- C5 amended: in the createWasmLoader variant (src/unnamed/part_000),
which is the one with the status check, a primary fetch resolving with a
non-ok response makes the operation fail with the Error whose message
carries the HTTP status and status text, and no callback fires; the
createWasmConfig variant performs no status check. -/
theorem claim_C5_amended (env : WasmEnv) (wasmPath : String) (imports : Imports)
    (r : Response)
    (hf : env.fetch (wasmPath ++ "/" ++ "vision_wasm_internal.wasm") = Except.ok r)
    (hbad : r.ok = false) :
    (v0InstantiateWasm env wasmPath imports).result =
      Except.error (JsError.mk ("HTTP " ++ toString r.status ++ ": " ++
        r.statusText)) ∧
    (v0InstantiateWasm env wasmPath imports).callbackCalls = [] := by
  simp [v0InstantiateWasm, hf, hbad]

/-- C5 amended witness: the 404 response yields the HTTP 404 error in the
createWasmLoader variant. -/
theorem claim_C5_amended_witness :
    (v0InstantiateWasm env404 "/wasm" imps0).result =
      Except.error (JsError.mk ("HTTP " ++ toString resp404.status ++ ": " ++
        resp404.statusText)) ∧
    (v0InstantiateWasm env404 "/wasm" imps0).callbackCalls = [] :=
  claim_C5_amended env404 "/wasm" imps0 resp404 rfl rfl

/-- C6 counterexample: the claim quantifies over every invocation of
instantiateWasm, but the createWasmConfig variant
(src/utils/mediapipe-wasm-adapter.ts) never inspects the content-type
header. In envNoMime the fetch succeeds with no content-type header, the
operation proceeds and succeeds, and no warning whatsoever is emitted. -/
theorem claim_C6_counterexample :
    envNoMime.fetchAccept "/wasm/vision_wasm_internal.wasm" = Except.ok respNoMime ∧
    respNoMime.contentType = none ∧
    List.filter isWarn (tsInstantiateWasm envNoMime "/wasm" imps0).console = [] ∧
    (tsInstantiateWasm envNoMime "/wasm" imps0).result = Except.ok pair0.inst :=
  ⟨rfl, rfl, rfl, rfl⟩

/-- C6 amended: the two part_000 loaders (createWasmLoader.instantiateWasm
and WasmLoader.loadWasm) emit exactly one console warning when the
content-type header of a successful response is absent or lacks
application/wasm, and still proceed to streaming compilation: the settled
result is exactly the streaming outcome, so the MIME mismatch alone never
fails the operation. The createWasmConfig variant performs no such check. -/
theorem claim_C6_amended (env : WasmEnv) (wasmPath fileName : String)
    (imports : Imports) (r s : Response)
    (hf : env.fetch (wasmPath ++ "/" ++ "vision_wasm_internal.wasm") = Except.ok r)
    (hok : r.ok = true) (hm : mimeOk r.contentType = false)
    (hf2 : env.fetchAccept (wasmPath ++ "/" ++ fileName) = Except.ok s)
    (hok2 : s.ok = true) (hm2 : mimeOk s.contentType = false) :
    (List.filter isWarn (v0InstantiateWasm env wasmPath imports).console =
      [ConsoleCall.warn [ConsoleArg.str
        ("[MediaPipeWasmAdapter] 警告: WASM MIME类型可能不正确: " ++
          jsString r.contentType)]] ∧
     (v0InstantiateWasm env wasmPath imports).result =
      (match env.instantiateStreaming r (some imports) with
       | Except.ok p => Except.ok p.inst
       | Except.error e => Except.error e)) ∧
    (List.filter isWarn (loadWasm env wasmPath fileName).console =
      [ConsoleCall.warn [ConsoleArg.str
        ("[WasmLoader] 警告: MIME类型可能不正确: " ++ jsString s.contentType)]] ∧
     (loadWasm env wasmPath fileName).result =
      (match env.instantiateStreaming s none with
       | Except.ok p => Except.ok p.inst
       | Except.error e => Except.error e)) := by
  constructor
  · cases hstream : env.instantiateStreaming r (some imports) <;>
      simp [v0InstantiateWasm, hf, hok, hm, hstream, isWarn]
  · cases hstream : env.instantiateStreaming s none <;>
      simp [loadWasm, hf2, hok2, hm2, hstream, isWarn]

/-- C6 amended witness: both part_000 loaders warn on the missing header
and still succeed in envNoMime. -/
theorem claim_C6_amended_witness :
    List.filter isWarn (v0InstantiateWasm envNoMime "/wasm" imps0).console =
      [ConsoleCall.warn [ConsoleArg.str
        ("[MediaPipeWasmAdapter] 警告: WASM MIME类型可能不正确: " ++
          jsString respNoMime.contentType)]] ∧
    List.filter isWarn (loadWasm envNoMime "/wasm" "vision_wasm_internal.wasm").console =
      [ConsoleCall.warn [ConsoleArg.str
        ("[WasmLoader] 警告: MIME类型可能不正确: " ++
          jsString respNoMime.contentType)]] :=
  ⟨((claim_C6_amended envNoMime "/wasm" "vision_wasm_internal.wasm" imps0
      respNoMime respNoMime rfl rfl rfl rfl rfl rfl).1).1,
   ((claim_C6_amended envNoMime "/wasm" "vision_wasm_internal.wasm" imps0
      respNoMime respNoMime rfl rfl rfl rfl rfl rfl).2).1⟩

/-- Every loadWasm invocation issues exactly one network request, for
basePath ++ "/" ++ file, on every control path. -/
theorem loadWasm_requests (env : WasmEnv) (basePath f : String) :
    (loadWasm env basePath f).requests = [basePath ++ "/" ++ f] := by
  cases h1 : env.fetchAccept (basePath ++ "/" ++ f) with
  | error e => simp [loadWasm, h1]
  | ok r =>
    cases hok : r.ok
    · simp [loadWasm, h1, hok]
    · cases h2 : env.instantiateStreaming r none <;> simp [loadWasm, h1, hok, h2]

/-- C7: preloadWasmFiles always resolves (never rejects) in every
environment; the Promise.all array settles with one entry per fixed file,
null exactly where that file failed to load and the loaded instance
otherwise, so one failure never aborts the other file; and every masked
failure is logged with the per-file warning. -/
theorem claim_C7_preload (env : WasmEnv) (basePath : String) :
    (preloadWasmFiles env basePath).result = Except.ok () ∧
    (preloadWasmFiles env basePath).settled =
      [loadOutcome env basePath "vision_wasm_internal.wasm",
       loadOutcome env basePath "vision_wasm_nosimd_internal.wasm"] ∧
    (∀ e, (loadWasm env basePath "vision_wasm_internal.wasm").result =
        Except.error e →
      ConsoleCall.warn
        [ConsoleArg.str ("[WasmLoader] 预加载失败 (" ++ "vision_wasm_internal.wasm" ++ "):"),
         ConsoleArg.str e.message] ∈ (preloadWasmFiles env basePath).console) ∧
    (∀ e, (loadWasm env basePath "vision_wasm_nosimd_internal.wasm").result =
        Except.error e →
      ConsoleCall.warn
        [ConsoleArg.str ("[WasmLoader] 预加载失败 (" ++ "vision_wasm_nosimd_internal.wasm" ++ "):"),
         ConsoleArg.str e.message] ∈ (preloadWasmFiles env basePath).console) := by
  cases h1 : (loadWasm env basePath "vision_wasm_internal.wasm").result <;>
  cases h2 : (loadWasm env basePath "vision_wasm_nosimd_internal.wasm").result <;>
  simp [preloadWasmFiles, preloadOne, wasmFiles, sequenceExcept, loadOutcome, h1, h2]

/-- C7 witness: with the first file failing on the network, preload still
resolves and the masked failure is logged. -/
theorem claim_C7_witness :
    (preloadWasmFiles envFirstFails "/wasm").result = Except.ok () ∧
    ConsoleCall.warn
      [ConsoleArg.str ("[WasmLoader] 预加载失败 (" ++ "vision_wasm_internal.wasm" ++ "):"),
       ConsoleArg.str eNet0.message] ∈ (preloadWasmFiles envFirstFails "/wasm").console :=
  ⟨(claim_C7_preload envFirstFails "/wasm").1,
   (claim_C7_preload envFirstFails "/wasm").2.2.1 eNet0 (by decide)⟩

/-- C8: validateWasmFiles resolves true exactly when both fixed files pass
their HEAD check, processes the files in order, and short-circuits: when
the first check fails (non-ok status or network error, both converted into
the boolean result rather than thrown) no request is issued for the second
file. -/
theorem claim_C8_validate (env : WasmEnv) (basePath : String) :
    ((validateWasmFiles env basePath).ok =
      (headPass env basePath "vision_wasm_internal.wasm" &&
       headPass env basePath "vision_wasm_internal.js")) ∧
    ((validateWasmFiles env basePath).requests =
      if headPass env basePath "vision_wasm_internal.wasm" then
        [basePath ++ "/" ++ "vision_wasm_internal.wasm",
         basePath ++ "/" ++ "vision_wasm_internal.js"]
      else
        [basePath ++ "/" ++ "vision_wasm_internal.wasm"]) := by
  unfold validateWasmFiles testFiles headPass
  cases h1 : env.fetchHead (basePath ++ "/" ++ "vision_wasm_internal.wasm") with
  | error e => simp [validateLoop, h1]
  | ok r1 =>
    cases hok1 : r1.ok
    · simp [validateLoop, h1, hok1]
    · cases h2 : env.fetchHead (basePath ++ "/" ++ "vision_wasm_internal.js") with
      | error e2 => simp [validateLoop, h1, hok1, h2]
      | ok r2 => cases hok2 : r2.ok <;> simp [validateLoop, h1, hok1, h2, hok2]

/-- C9: loadWasm, declared in the source to return a promise of a
WebAssembly.Module, settles with the instance field of the
streaming-instantiation pair; it invokes the streaming primitive with no
imports at all (none); and every failure of the fetch, of the status check,
or of the compilation propagates to the caller as the rejection given here. -/
theorem claim_C9_loadWasm (env : WasmEnv) (basePath wasmFileName : String) :
    (loadWasm env basePath wasmFileName).result =
      (match env.fetchAccept (basePath ++ "/" ++ wasmFileName) with
       | Except.error e => Except.error e
       | Except.ok response =>
         if response.ok then
           match env.instantiateStreaming response none with
           | Except.ok wasmModule => Except.ok wasmModule.inst
           | Except.error e => Except.error e
         else
           Except.error (JsError.mk ("HTTP " ++ toString response.status ++ ": " ++
             response.statusText))) := by
  cases h1 : env.fetchAccept (basePath ++ "/" ++ wasmFileName) with
  | error e => simp [loadWasm, h1]
  | ok r =>
    cases hok : r.ok
    · simp [loadWasm, h1, hok]
    · cases h2 : env.instantiateStreaming r none <;> simp [loadWasm, h1, hok, h2]

/-- C10: neither public operation takes a filename argument; in every
environment preloadWasmFiles requests exactly the fixed pair
vision_wasm_internal.wasm and vision_wasm_nosimd_internal.wasm, and
validateWasmFiles requests only its fixed pair
vision_wasm_internal.wasm and vision_wasm_internal.js, in order (the
second only when the first check passed). -/
theorem claim_C10_fixedFiles (env : WasmEnv) (basePath : String) :
    (preloadWasmFiles env basePath).requests =
      [basePath ++ "/" ++ "vision_wasm_internal.wasm",
       basePath ++ "/" ++ "vision_wasm_nosimd_internal.wasm"] ∧
    ((validateWasmFiles env basePath).requests =
        [basePath ++ "/" ++ "vision_wasm_internal.wasm"] ∨
     (validateWasmFiles env basePath).requests =
        [basePath ++ "/" ++ "vision_wasm_internal.wasm",
         basePath ++ "/" ++ "vision_wasm_internal.js"]) := by
  constructor
  · cases h1 : (loadWasm env basePath "vision_wasm_internal.wasm").result <;>
    cases h2 : (loadWasm env basePath "vision_wasm_nosimd_internal.wasm").result <;>
    simp [preloadWasmFiles, preloadOne, wasmFiles, sequenceExcept, h1, h2,
      loadWasm_requests]
  · unfold validateWasmFiles testFiles
    cases h1 : env.fetchHead (basePath ++ "/" ++ "vision_wasm_internal.wasm") with
    | error e => simp [validateLoop, h1]
    | ok r1 =>
      cases hok1 : r1.ok
      · simp [validateLoop, h1, hok1]
      · cases h2 : env.fetchHead (basePath ++ "/" ++ "vision_wasm_internal.js") with
        | error e2 => simp [validateLoop, h1, hok1, h2]
        | ok r2 => cases hok2 : r2.ok <;> simp [validateLoop, h1, hok1, h2, hok2]
